import Mathlib

/-!
Verification of the mathematical core of `src/Presentation_Animation.py`
(class `EffortModel`): the production function `f`, the cost function `c`,
the payoff function `payoff`, and the closed-form optimal-effort solver
`e_star`.  Python floats are embedded as real numbers; the `if` guards of
the source are embedded as real-valued conditionals.
-/

/-- The scalar parameters of the `EffortModel` class (the class attributes
`F_COEFF`, `C_COEFF`, `SHARE`, `ALPHA`, `LAMBDA` of the script). -/
structure EffortModel where
  F_COEFF : ℝ
  C_COEFF : ℝ
  SHARE : ℝ
  ALPHA : ℝ
  LAMBDA : ℝ

/-- The parameter values set at the top of the script:
`F_COEFF = 5`, `C_COEFF = 5`, `SHARE = 0.5`, `ALPHA = 0.25`, `LAMBDA = 1.4`. -/
noncomputable def defaultModel : EffortModel :=
  ⟨5, 5, 0.5, 0.25, 1.4⟩

/-- Production function `f`: `if e < 0: return 0; return F_COEFF * np.sqrt(e)`. -/
noncomputable def EffortModel.f (m : EffortModel) (e : ℝ) : ℝ :=
  if e < 0 then 0 else m.F_COEFF * Real.sqrt e

/-- Cost function `c`: `return C_COEFF * e**2`. -/
noncomputable def EffortModel.c (m : EffortModel) (e : ℝ) : ℝ :=
  m.C_COEFF * e ^ 2

/-- Payoff: `if e <= 0: return 0; return k * F_COEFF * np.sqrt(e) - C_COEFF * e**2`. -/
noncomputable def EffortModel.payoff (m : EffortModel) (e : ℝ) (k : ℝ) : ℝ :=
  if e ≤ 0 then 0 else k * m.F_COEFF * Real.sqrt e - m.C_COEFF * e ^ 2

/-- Optimal effort `e_star`: with `numerator = F_COEFF * k` and
`denominator = 4 * C_COEFF`,
`if denominator == 0 or numerator / denominator < 0: return 0;
return (numerator / denominator) ** (2 / 3)` (the two `let`s of the source
are inlined). -/
noncomputable def EffortModel.e_star (m : EffortModel) (k : ℝ) : ℝ :=
  if 4 * m.C_COEFF = 0 ∨ m.F_COEFF * k / (4 * m.C_COEFF) < 0 then 0
  else (m.F_COEFF * k / (4 * m.C_COEFF)) ^ ((2 : ℝ) / 3)

/-- `np.sqrt` applied to a negative float yields NaN rather than a real
number; the checked square root marks that case as undefined. -/
noncomputable def sqrtChecked (e : ℝ) : Option ℝ :=
  if e < 0 then none else some (Real.sqrt e)

/-- Python `**` with a negative base and a fractional exponent leaves the
reals (a complex result); the checked power marks that case as undefined. -/
noncomputable def rpowChecked (b x : ℝ) : Option ℝ :=
  if b < 0 then none else some (b ^ x)

/-- `f` with its square-root primitive checked for domain errors. -/
noncomputable def EffortModel.fChecked (m : EffortModel) (e : ℝ) : Option ℝ :=
  if e < 0 then some 0 else (sqrtChecked e).map (fun s => m.F_COEFF * s)

/-- `c` involves no partial primitive. -/
noncomputable def EffortModel.cChecked (m : EffortModel) (e : ℝ) : Option ℝ :=
  some (m.C_COEFF * e ^ 2)

/-- `payoff` with its square-root primitive checked for domain errors. -/
noncomputable def EffortModel.payoffChecked (m : EffortModel) (e k : ℝ) : Option ℝ :=
  if e ≤ 0 then some 0
  else (sqrtChecked e).map (fun s => k * m.F_COEFF * s - m.C_COEFF * e ^ 2)

/-- `e_star` with its power primitive checked for domain errors; the nested
`if`s mirror the short-circuit `or` of the source, which never divides by a
zero denominator. -/
noncomputable def EffortModel.eStarChecked (m : EffortModel) (k : ℝ) : Option ℝ :=
  if 4 * m.C_COEFF = 0 then some 0
  else if m.F_COEFF * k / (4 * m.C_COEFF) < 0 then some 0
  else rpowChecked (m.F_COEFF * k / (4 * m.C_COEFF)) ((2 : ℝ) / 3)

/-- The model of the spec's degenerate-parameter scenario: `C_COEFF = 0`. -/
noncomputable def zeroCostModel : EffortModel :=
  ⟨5, 0, 0.5, 0.25, 1.4⟩

/-- A model with a negative cost coefficient, used to probe the guard of
`e_star`. -/
noncomputable def negCostModel : EffortModel :=
  ⟨5, -5, 0.5, 0.25, 1.4⟩

theorem e_star_of_nonneg (m : EffortModel) (k : ℝ) (hden : 4 * m.C_COEFF ≠ 0)
    (hratio : 0 ≤ m.F_COEFF * k / (4 * m.C_COEFF)) :
    m.e_star k = (m.F_COEFF * k / (4 * m.C_COEFF)) ^ ((2 : ℝ) / 3) := by
  unfold EffortModel.e_star
  rw [if_neg]
  push_neg
  exact ⟨hden, hratio⟩

theorem e_star_lt (m : EffortModel) (hF : 0 < m.F_COEFF) (hC : 0 < m.C_COEFF)
    {k1 k2 : ℝ} (h1 : 0 < k1) (h12 : k1 < k2) : m.e_star k1 < m.e_star k2 := by
  have hden : (0 : ℝ) < 4 * m.C_COEFF := by linarith
  have hr1 : 0 ≤ m.F_COEFF * k1 / (4 * m.C_COEFF) :=
    div_nonneg (by nlinarith) hden.le
  have hr2 : 0 ≤ m.F_COEFF * k2 / (4 * m.C_COEFF) :=
    div_nonneg (by nlinarith) hden.le
  rw [e_star_of_nonneg m k1 hden.ne' hr1, e_star_of_nonneg m k2 hden.ne' hr2]
  refine Real.rpow_lt_rpow hr1 ?_ (by norm_num)
  gcongr

theorem quartic_le_max (F C k t u : ℝ) (hC : 0 ≤ C)
    (hFOC : k * F = 4 * C * t ^ 3) :
    k * F * u - C * u ^ 4 ≤ k * F * t - C * t ^ 4 := by
  have key : 0 ≤ C * ((u - t) ^ 2 * ((u + t) ^ 2 + 2 * t ^ 2)) := by positivity
  have expand : k * F * t - C * t ^ 4 - (k * F * u - C * u ^ 4)
      = C * ((u - t) ^ 2 * ((u + t) ^ 2 + 2 * t ^ 2)) := by
    linear_combination (t - u) * hFOC
  linarith [key, expand]

/-- C1: for every incentive multiplier `k ≥ 0`, when `F_COEFF > 0` and
`C_COEFF > 0`, `e_star k` returns `(F_COEFF * k / (4 * C_COEFF)) ^ (2/3)`. -/
theorem claim_e_star_closed_form (m : EffortModel) (k : ℝ) (hk : 0 ≤ k)
    (hF : 0 < m.F_COEFF) (hC : 0 < m.C_COEFF) :
    m.e_star k = (m.F_COEFF * k / (4 * m.C_COEFF)) ^ ((2 : ℝ) / 3) := by
  have hden : (0 : ℝ) < 4 * m.C_COEFF := by linarith
  exact e_star_of_nonneg m k hden.ne'
    (div_nonneg (mul_nonneg hF.le hk) hden.le)

theorem claim_e_star_closed_form_witness :
    0 ≤ (1 : ℝ) ∧ 0 < defaultModel.F_COEFF ∧ 0 < defaultModel.C_COEFF ∧
      defaultModel.e_star 1
        = (defaultModel.F_COEFF * 1 / (4 * defaultModel.C_COEFF)) ^ ((2 : ℝ) / 3) :=
  ⟨by norm_num, by norm_num [defaultModel], by norm_num [defaultModel],
    claim_e_star_closed_form defaultModel 1 (by norm_num)
      (by norm_num [defaultModel]) (by norm_num [defaultModel])⟩

/-- C2: for every incentive multiplier `k > 0`, when `F_COEFF > 0` and
`C_COEFF > 0`, the value returned by `e_star k` maximizes `payoff`: for every
real effort `e`, `payoff e k ≤ payoff (e_star k) k`. -/
theorem claim_e_star_maximizes (m : EffortModel) (k : ℝ) (hk : 0 < k)
    (hF : 0 < m.F_COEFF) (hC : 0 < m.C_COEFF) (e : ℝ) :
    m.payoff e k ≤ m.payoff (m.e_star k) k := by
  have hden : (0 : ℝ) < 4 * m.C_COEFF := by linarith
  have hr : 0 < m.F_COEFF * k / (4 * m.C_COEFF) :=
    div_pos (mul_pos hF hk) hden
  obtain ⟨t, ht, ht3⟩ :
      ∃ t : ℝ, 0 < t ∧ t ^ 3 = m.F_COEFF * k / (4 * m.C_COEFF) := by
    refine ⟨(m.F_COEFF * k / (4 * m.C_COEFF)) ^ ((1 : ℝ) / 3),
      Real.rpow_pos_of_pos hr _, ?_⟩
    rw [← Real.rpow_natCast ((m.F_COEFF * k / (4 * m.C_COEFF)) ^ ((1 : ℝ) / 3)) 3,
      ← Real.rpow_mul hr.le]
    norm_num
  have hestar : m.e_star k = t ^ 2 := by
    rw [e_star_of_nonneg m k hden.ne' hr.le, ← ht3,
      ← Real.rpow_natCast t 3, ← Real.rpow_mul ht.le]
    norm_num
  have hFOC : k * m.F_COEFF = 4 * m.C_COEFF * t ^ 3 := by
    rw [ht3]
    field_simp
    ring
  have hp_star : m.payoff (m.e_star k) k
      = k * m.F_COEFF * t - m.C_COEFF * t ^ 4 := by
    rw [hestar]
    unfold EffortModel.payoff
    rw [if_neg (by nlinarith : ¬ t ^ 2 ≤ (0 : ℝ)), Real.sqrt_sq ht.le]
    ring
  rcases le_or_lt e 0 with he | he
  · have hp_e : m.payoff e k = 0 := by
      unfold EffortModel.payoff
      rw [if_pos he]
    have h4 : k * m.F_COEFF * t = 4 * m.C_COEFF * t ^ 4 := by
      rw [hFOC]
      ring
    rw [hp_e, hp_star]
    nlinarith [mul_pos hC (pow_pos ht 4)]
  · have hsq : Real.sqrt e ^ 2 = e := Real.sq_sqrt he.le
    have hq : Real.sqrt e ^ 4 = e ^ 2 := by
      rw [show Real.sqrt e ^ 4 = (Real.sqrt e ^ 2) ^ 2 by ring, hsq]
    have hp_e : m.payoff e k
        = k * m.F_COEFF * Real.sqrt e - m.C_COEFF * Real.sqrt e ^ 4 := by
      unfold EffortModel.payoff
      rw [if_neg (not_le.mpr he), hq]
    rw [hp_e, hp_star]
    exact quartic_le_max m.F_COEFF m.C_COEFF k t (Real.sqrt e) hC.le hFOC

theorem claim_e_star_maximizes_witness :
    0 < (1 : ℝ) ∧ 0 < defaultModel.F_COEFF ∧ 0 < defaultModel.C_COEFF ∧
      defaultModel.payoff 0.5 1 ≤ defaultModel.payoff (defaultModel.e_star 1) 1 :=
  ⟨by norm_num, by norm_num [defaultModel], by norm_num [defaultModel],
    claim_e_star_maximizes defaultModel 1 (by norm_num)
      (by norm_num [defaultModel]) (by norm_num [defaultModel]) 0.5⟩

/-- C3 counterexample: with the script's parameters (`F_COEFF = 5`,
`C_COEFF = 5`, `ALPHA = 0.25`, `LAMBDA = 1.4`) the claimed chain
`e_star ALPHA < e_star 1 < e_star (LAMBDA * ALPHA) < e_star LAMBDA` is
false: since `LAMBDA * ALPHA = 0.35 < 1`, the middle inequality fails. -/
theorem claim_ordering_counterexample :
    ¬ (defaultModel.e_star defaultModel.ALPHA < defaultModel.e_star 1 ∧
       defaultModel.e_star 1
         < defaultModel.e_star (defaultModel.LAMBDA * defaultModel.ALPHA) ∧
       defaultModel.e_star (defaultModel.LAMBDA * defaultModel.ALPHA)
         < defaultModel.e_star defaultModel.LAMBDA) := by
  rintro ⟨-, h2, -⟩
  have h : defaultModel.e_star (defaultModel.LAMBDA * defaultModel.ALPHA)
      < defaultModel.e_star 1 :=
    e_star_lt defaultModel (by norm_num [defaultModel]) (by norm_num [defaultModel])
      (by norm_num [defaultModel]) (by norm_num [defaultModel])
  exact absurd h2 (lt_asymm h)

/-- C3 amended: with `F_COEFF = 5`, `C_COEFF = 5`, `ALPHA = 0.25`,
`LAMBDA = 1.4`, the four equilibrium efforts satisfy
`e_star ALPHA < e_star (LAMBDA * ALPHA) < e_star 1 < e_star LAMBDA`
(the multiplier `LAMBDA * ALPHA = 0.35` lies between `ALPHA` and `1`). -/
theorem claim_ordering_amended :
    defaultModel.e_star defaultModel.ALPHA
        < defaultModel.e_star (defaultModel.LAMBDA * defaultModel.ALPHA) ∧
      defaultModel.e_star (defaultModel.LAMBDA * defaultModel.ALPHA)
        < defaultModel.e_star 1 ∧
      defaultModel.e_star 1 < defaultModel.e_star defaultModel.LAMBDA := by
  refine ⟨?_, ?_, ?_⟩ <;>
    exact e_star_lt defaultModel (by norm_num [defaultModel])
      (by norm_num [defaultModel]) (by norm_num [defaultModel])
      (by norm_num [defaultModel])

/-- C4: for fixed `F_COEFF > 0` and `C_COEFF > 0`, `e_star` is strictly
increasing on positive multipliers: `0 < k1 < k2` implies
`e_star k1 < e_star k2`. -/
theorem claim_e_star_strict_mono (m : EffortModel) (hF : 0 < m.F_COEFF)
    (hC : 0 < m.C_COEFF) (k1 k2 : ℝ) (h1 : 0 < k1) (h12 : k1 < k2) :
    m.e_star k1 < m.e_star k2 :=
  e_star_lt m hF hC h1 h12

theorem claim_e_star_strict_mono_witness :
    0 < defaultModel.F_COEFF ∧ 0 < defaultModel.C_COEFF ∧ (0 : ℝ) < 1 ∧
      (1 : ℝ) < 2 ∧ defaultModel.e_star 1 < defaultModel.e_star 2 :=
  ⟨by norm_num [defaultModel], by norm_num [defaultModel], by norm_num, by norm_num,
    claim_e_star_strict_mono defaultModel (by norm_num [defaultModel])
      (by norm_num [defaultModel]) 1 2 (by norm_num) (by norm_num)⟩

/-- C5 counterexample: with `F_COEFF = 5` and `C_COEFF = -5` (zero-or-negative
cost coefficient) and the multiplier `k = -1`, the ratio
`F_COEFF * k / (4 * C_COEFF) = 1/4` is positive, so `e_star (-1)` returns
`(1/4) ^ (2/3) ≠ 0`, refuting "returns 0 for every k". -/
theorem claim_nonpos_cost_counterexample :
    negCostModel.C_COEFF ≤ 0 ∧ negCostModel.e_star (-1) ≠ 0 := by
  refine ⟨by norm_num [negCostModel], ?_⟩
  have h : 0 < negCostModel.e_star (-1) := by
    have hne : ¬ (4 * negCostModel.C_COEFF = 0 ∨
        negCostModel.F_COEFF * (-1) / (4 * negCostModel.C_COEFF) < 0) := by
      norm_num [negCostModel]
    unfold EffortModel.e_star
    rw [if_neg hne]
    apply Real.rpow_pos_of_pos
    norm_num [negCostModel]
  exact h.ne'

/-- C5 amended: when `C_COEFF` is zero or negative, `e_star k` returns `0`
for every incentive multiplier `k` — unconditionally when `C_COEFF = 0`
(division-by-zero guard), and provided `F_COEFF * k ≥ 0` when `C_COEFF < 0`
(the abnormal input is silently normalized, never an error). -/
theorem claim_nonpos_cost_amended (m : EffortModel) (k : ℝ)
    (hC : m.C_COEFF ≤ 0) (hFk : m.C_COEFF < 0 → 0 ≤ m.F_COEFF * k) :
    m.e_star k = 0 := by
  unfold EffortModel.e_star
  rcases eq_or_lt_of_le hC with hC0 | hCneg
  · rw [if_pos (Or.inl (by rw [hC0]; ring))]
  · rcases lt_or_le (m.F_COEFF * k / (4 * m.C_COEFF)) 0 with hr | hr
    · rw [if_pos (Or.inr hr)]
    · have hden : 4 * m.C_COEFF < 0 := by linarith
      have hle : m.F_COEFF * k / (4 * m.C_COEFF) ≤ 0 :=
        div_nonpos_iff.mpr (Or.inl ⟨hFk hCneg, hden.le⟩)
      have heq : m.F_COEFF * k / (4 * m.C_COEFF) = 0 := le_antisymm hle hr
      rw [if_neg (by push_neg; exact ⟨hden.ne, hr⟩), heq,
        Real.zero_rpow (by norm_num)]

theorem claim_nonpos_cost_amended_witness :
    zeroCostModel.C_COEFF ≤ 0 ∧ zeroCostModel.e_star (-3) = 0 ∧
      negCostModel.C_COEFF ≤ 0 ∧ 0 ≤ negCostModel.F_COEFF * 1 ∧
      negCostModel.e_star 1 = 0 :=
  ⟨by norm_num [zeroCostModel],
    claim_nonpos_cost_amended zeroCostModel (-3) (by norm_num [zeroCostModel])
      (by intro h; norm_num [zeroCostModel] at h),
    by norm_num [negCostModel], by norm_num [negCostModel],
    claim_nonpos_cost_amended negCostModel 1 (by norm_num [negCostModel])
      (by intro h; norm_num [negCostModel])⟩

/-- C6: for every real effort `e`, `f e` returns `0` if `e < 0` and returns
`F_COEFF * sqrt e` if `e ≥ 0`; no error is raised for negative effort. -/
theorem claim_production_contract (m : EffortModel) (e : ℝ) :
    (e < 0 → m.f e = 0) ∧ (0 ≤ e → m.f e = m.F_COEFF * Real.sqrt e) := by
  constructor
  · intro h
    unfold EffortModel.f
    rw [if_pos h]
  · intro h
    unfold EffortModel.f
    rw [if_neg (not_lt.mpr h)]

theorem claim_production_contract_witness :
    defaultModel.f (-1) = 0 ∧ defaultModel.f 4 = defaultModel.F_COEFF * Real.sqrt 4 :=
  ⟨(claim_production_contract defaultModel (-1)).1 (by norm_num),
    (claim_production_contract defaultModel 4).2 (by norm_num)⟩

/-- C7: for every real effort `e` and multiplier `k`, `payoff e k` returns `0`
if `e ≤ 0`, and returns `k * F_COEFF * sqrt e - C_COEFF * e ^ 2` if `e > 0`. -/
theorem claim_payoff_contract (m : EffortModel) (e k : ℝ) :
    (e ≤ 0 → m.payoff e k = 0) ∧
      (0 < e → m.payoff e k = k * m.F_COEFF * Real.sqrt e - m.C_COEFF * e ^ 2) := by
  constructor
  · intro h
    unfold EffortModel.payoff
    rw [if_pos h]
  · intro h
    unfold EffortModel.payoff
    rw [if_neg (not_le.mpr h)]

theorem claim_payoff_contract_witness :
    defaultModel.payoff 0 3 = 0 ∧
      defaultModel.payoff 1 3
        = 3 * defaultModel.F_COEFF * Real.sqrt 1 - defaultModel.C_COEFF * 1 ^ 2 :=
  ⟨(claim_payoff_contract defaultModel 0 3).1 (by norm_num),
    (claim_payoff_contract defaultModel 1 3).2 (by norm_num)⟩

/-- C8: for every real effort `e`, `c e` equals `C_COEFF * e ^ 2`, and the
cost function is even-symmetric: `c e = c (-e)`. -/
theorem claim_cost_even (m : EffortModel) (e : ℝ) :
    m.c e = m.C_COEFF * e ^ 2 ∧ m.c e = m.c (-e) := by
  refine ⟨rfl, ?_⟩
  unfold EffortModel.c
  ring

/-- C9: every operation is total: on every real argument the checked
evaluators (which flag any square root of a negative number, fractional
power of a negative base, or division by zero as undefined) return a defined
real value, namely the one the unchecked functions compute. -/
theorem claim_total (m : EffortModel) (e k : ℝ) :
    m.fChecked e = some (m.f e) ∧ m.cChecked e = some (m.c e) ∧
      m.payoffChecked e k = some (m.payoff e k) ∧
      m.eStarChecked k = some (m.e_star k) := by
  refine ⟨?_, rfl, ?_, ?_⟩
  · by_cases h : e < 0 <;>
      simp [EffortModel.fChecked, EffortModel.f, sqrtChecked, h]
  · by_cases h : e ≤ 0
    · simp [EffortModel.payoffChecked, EffortModel.payoff, h]
    · have hnl : ¬ e < 0 := by
        push_neg at h ⊢
        linarith
      simp [EffortModel.payoffChecked, EffortModel.payoff, sqrtChecked, h, hnl]
  · by_cases h0 : 4 * m.C_COEFF = 0
    · simp [EffortModel.eStarChecked, EffortModel.e_star, h0]
    · by_cases h1 : m.F_COEFF * k / (4 * m.C_COEFF) < 0
      · simp [EffortModel.eStarChecked, EffortModel.e_star, h0, h1]
      · simp [EffortModel.eStarChecked, EffortModel.e_star, rpowChecked, h0, h1]

/-- C10: for every effort `e > 0` and every multiplier `k`, the payoff
decomposes through the other two operations:
`payoff e k = k * f e - c e`. -/
theorem claim_payoff_decomposition (m : EffortModel) (e k : ℝ) (he : 0 < e) :
    m.payoff e k = k * m.f e - m.c e := by
  unfold EffortModel.payoff EffortModel.f EffortModel.c
  rw [if_neg (not_le.mpr he), if_neg (not_lt.mpr he.le)]
  ring

theorem claim_payoff_decomposition_witness :
    (0 : ℝ) < 1 ∧ defaultModel.payoff 1 2 = 2 * defaultModel.f 1 - defaultModel.c 1 :=
  ⟨by norm_num, claim_payoff_decomposition defaultModel 1 2 (by norm_num)⟩
